import Mathlib

set_option maxRecDepth 100000

/-!
Shallow embedding of the case-study management backend (FastAPI + psycopg2 +
PostgreSQL + filesystem blob store) for verification of its specification.

The embedding translates the endpoint handlers of `endpoints/projects.py`,
`endpoints/files.py` and `endpoints/outcomes.py`.  The relational store is a
record of three tables (lists of rows) with serial id counters; the blob store
is a list of on-disk paths; a system state bundles both with a clock used for
`created_at DEFAULT NOW()` columns.  Fallible external effects (disk writes,
SQL INSERTs, disk removals) are driven by explicit fault parameters so that
theorems can quantify over every failure pattern.  Database work inside one
handler happens on a working copy that is installed on `commit` and discarded
on `rollback`; blob-store effects are never transactional, exactly as in the
source.  The handlers in `endpoints/files.py` are line-for-line the same
control flow as the ones in `endpoints/projects.py` (only detail strings
differ), so one embedding covers both routes.
-/

/-- An HTTP error as raised by `HTTPException(status_code, detail)`. -/
structure Err where
  status : Nat
  detail : String
deriving DecidableEq, Repr

/-- Python exceptions observed by the blanket `except Exception` handlers:
either an `HTTPException` raised inside the `try`, or a database-driver error
carrying a message. -/
inductive PyExc where
  | http (e : Err)
  | db (msg : String)
deriving DecidableEq, Repr

/-- The `__str__` of a Starlette `HTTPException`: `f.status: detail`. -/
def errStr (e : Err) : String :=
  toString e.status ++ ": " ++ e.detail

/-- The `str(e)` the handlers interpolate into their wrapped error details. -/
def excStr : PyExc → String
  | PyExc.http e => errStr e
  | PyExc.db msg => msg

/-- Whether an endpoint result is an error response. -/
def isErr {α : Type} : Except Err α → Bool
  | Except.error _ => true
  | Except.ok _ => false

/-- A row of the `projects` table (schema in `main.py`: every column nullable
except `id` and `title`; nullability is still modelled on `title` because the
list endpoint COALESCEs it).  Dates are opaque strings, `created_at` is a
clock value. -/
structure ProjectRow where
  id : Nat
  title : Option String
  description : Option String
  location : Option String
  start_date : Option String
  end_date : Option String
  community_size : Option Int
  hazard_types : Option (List String)
  implementing_org : Option String
  author : Option String
  source : Option String
  created_at : Nat
deriving DecidableEq, Repr

/-- A row of the `outcomes` table; `success_metrics` (JSONB) is opaque. -/
structure OutcomeRow where
  id : Nat
  project_id : Nat
  success_metrics : Option String
  challenges : Option (List String)
  overall_success : Option Bool
  key_factors : Option (List String)
  created_at : Nat
deriving DecidableEq, Repr

/-- A row of the `files` table. -/
structure FileRow where
  id : Nat
  project_id : Nat
  filename : String
  filepath : String
  filetype : Option String
  uploaded_at : Nat
deriving DecidableEq, Repr

/-- The relational store: three tables plus the SERIAL counters. -/
structure DB where
  projects : List ProjectRow
  outcomes : List OutcomeRow
  files : List FileRow
  nextProjectId : Nat
  nextOutcomeId : Nat
  nextFileId : Nat
deriving DecidableEq, Repr

/-- Whole-system state: relational store, blob store (the set of on-disk
paths under the uploads directory) and the clock backing `NOW()`. -/
structure Sys where
  db : DB
  blobs : List String
  clock : Nat
deriving DecidableEq, Repr

/-- Writing blob bytes to a path (`open(path, "wb")` then `write`): the path
exists afterwards; overwriting keeps a single entry. -/
def writeBlob (bl : List String) (p : String) : List String :=
  if p ∈ bl then bl else p :: bl

/-- `os.remove(path)`: the path no longer exists afterwards. -/
def removeBlob (bl : List String) (p : String) : List String :=
  bl.filter (fun q => q != p)

/-- `CASE_STUDY_DIR / filename` rendered as the stored `filepath` string. -/
def filePathOf (name : String) : String :=
  "uploads/" ++ name

/-- The filename check shared by the upload endpoints:
`not file.filename or '/' in file.filename or '\\' in file.filename`
(characterwise over the decoded string so that it evaluates by `decide`). -/
def badFilename (name : String) : Bool :=
  name.toList.isEmpty || name.toList.contains '/' || name.toList.contains '\\'

/-- Decidable equality of endpoint results. -/
instance instDecEqExcept {ε α : Type} [DecidableEq ε] [DecidableEq α] :
    DecidableEq (Except ε α) := fun a b =>
  match a, b with
  | Except.ok x, Except.ok y =>
    if h : x = y then isTrue (by rw [h])
    else isFalse (fun hc => h (by injection hc))
  | Except.error x, Except.error y =>
    if h : x = y then isTrue (by rw [h])
    else isFalse (fun hc => h (by injection hc))
  | Except.ok _, Except.error _ => isFalse (fun hc => by injection hc)
  | Except.error _, Except.ok _ => isFalse (fun hc => by injection hc)

/-- An uploaded blob as the handlers see it: client-supplied filename and
MIME content type (the raw bytes never influence control flow). -/
structure UploadFileReq where
  filename : String
  contentType : Option String
deriving DecidableEq, Repr

/-- Fault pattern for a single-file upload: whether the disk write, the
implicit-project INSERT and the files-row INSERT succeed. -/
structure UploadFaults where
  diskSaveOk : Bool
  dbProjInsertOk : Bool
  dbFileInsertOk : Bool
deriving DecidableEq, Repr

/-- Successful single-file upload response `(project_id, file_id)`. -/
structure SingleResp where
  projectId : Nat
  fileId : Nat
deriving DecidableEq, Repr

/-- The row inserted by `INSERT INTO projects (title, description, location)`:
all other columns default to NULL, `created_at` to `NOW()`. -/
def newProjectRow (id : Nat) (title description : Option String)
    (loc : String) (clock : Nat) : ProjectRow :=
  { id := id, title := title, description := description, location := some loc,
    start_date := none, end_date := none, community_size := none,
    hazard_types := none, implementing_org := none, author := none,
    source := none, created_at := clock }

/-- `upload_case_study` (`endpoints/projects.py` lines 117-185; the handler of
the same name in `endpoints/files.py` lines 66-133 is identical up to detail
strings): validate the target and the filename, write the blob, then in one
transaction resolve or create the project and insert the file row; on any
exception in the transaction, roll back, delete the just-written blob and
re-raise as a 400 whose detail is `str(e)`. -/
def upload_case_study (st : Sys) (title description : Option String)
    (projectId : Option Nat) (file : UploadFileReq) (f : UploadFaults) :
    Except Err SingleResp × Sys :=
  if projectId.isNone && (title.isNone || description.isNone) then
    (Except.error ⟨400, "Need either project_id OR title+description"⟩, st)
  else if badFilename file.filename then
    (Except.error ⟨400, "Bad filename"⟩, st)
  else if !f.diskSaveOk then
    (Except.error ⟨500, "Could not save file: disk write failed"⟩, st)
  else
    let path := filePathOf file.filename
    let blobs1 := writeBlob st.blobs path
    let resolved : Except PyExc (DB × Nat) :=
      match projectId with
      | none =>
        if f.dbProjInsertOk then
          let prow := newProjectRow st.db.nextProjectId title description
            "unspecified" st.clock
          let dbNew := { st.db with
                         projects := st.db.projects ++ [prow],
                         nextProjectId := st.db.nextProjectId + 1 }
          Except.ok (dbNew, prow.id)
        else Except.error (PyExc.db "project insert failed")
      | some pid =>
        if st.db.projects.any (fun p => p.id == pid) then Except.ok (st.db, pid)
        else Except.error (PyExc.http ⟨404, "No project found"⟩)
    match resolved with
    | Except.error e =>
      (Except.error ⟨400, excStr e⟩, { st with blobs := removeBlob blobs1 path })
    | Except.ok (db1, pid) =>
      if f.dbFileInsertOk then
        let frow : FileRow :=
          { id := db1.nextFileId, project_id := pid,
            filename := file.filename, filepath := path,
            filetype := file.contentType, uploaded_at := st.clock }
        let db2 := { db1 with
                     files := db1.files ++ [frow],
                     nextFileId := db1.nextFileId + 1 }
        (Except.ok ⟨pid, frow.id⟩, { st with db := db2, blobs := blobs1 })
      else
        (Except.error ⟨400, excStr (PyExc.db "file insert failed")⟩,
         { st with blobs := removeBlob blobs1 path })

/-- The blob store contains no path without a matching `files` row. -/
def noOrphanBlobs (st : Sys) : Bool :=
  st.blobs.all (fun b => st.db.files.any (fun fr => fr.filepath == b))

/-- One entry of a multi-file upload batch: the blob plus the fault pattern
for its disk write and its `files`-row INSERT. -/
structure FileItem where
  file : UploadFileReq
  saveOk : Bool
  insertOk : Bool
deriving DecidableEq, Repr

/-- Successful multi-file upload response: the count interpolated into the
`Uploaded N files` message, the project id and the inserted file ids. -/
structure MultiResp where
  savedCount : Nat
  projectId : Nat
  fileIds : List Nat
deriving DecidableEq, Repr

/-- Loop state of the per-file loop of `upload_case_study_multiple`:
the working database copy, the disk, `saved_files` and `file_ids`. -/
structure LoopSt where
  db : DB
  blobs : List String
  savedPaths : List String
  fileIds : List Nat
deriving DecidableEq, Repr

/-- The per-file loop of `upload_case_study_multiple`
(`endpoints/projects.py` lines 227-253): skip invalid filenames, skip a file
whose disk write fails, record the path in `saved_files` once written, then
attempt the row INSERT, skipping the file (but keeping its blob) if the
INSERT fails. -/
def processFiles (pid clock : Nat) : List FileItem → LoopSt → LoopSt
  | [], s => s
  | it :: rest, s =>
    if badFilename it.file.filename then processFiles pid clock rest s
    else if !it.saveOk then processFiles pid clock rest s
    else
      let path := filePathOf it.file.filename
      let s1 : LoopSt :=
        { s with blobs := writeBlob s.blobs path,
                 savedPaths := s.savedPaths ++ [path] }
      if !it.insertOk then processFiles pid clock rest s1
      else
        let frow : FileRow :=
          { id := s1.db.nextFileId, project_id := pid,
            filename := it.file.filename, filepath := path,
            filetype := it.file.contentType, uploaded_at := clock }
        let db2 :=
          { s1.db with
            files := s1.db.files ++ [frow],
            nextFileId := s1.db.nextFileId + 1 }
        processFiles pid clock rest
          { s1 with db := db2, fileIds := s1.fileIds ++ [frow.id] }

/-- `upload_case_study_multiple` (`endpoints/projects.py` lines 191-269; the
handler of the same name in `endpoints/files.py` lines 137-218 is identical up
to detail strings): validate, resolve or create the project once, run the
best-effort per-file loop, commit.  An exception during project resolution or
creation reaches the outer handler before any blob was written
(`saved_files` is still empty), so the cleanup loop removes nothing and the
error is re-raised as a 500 wrapping `str(e)`. -/
def upload_case_study_multiple (st : Sys) (title description : Option String)
    (projectId : Option Nat) (items : List FileItem) (projInsertOk : Bool) :
    Except Err MultiResp × Sys :=
  if items.isEmpty then
    (Except.error ⟨400, "No files uploaded"⟩, st)
  else if projectId.isNone && (title.isNone || description.isNone) then
    (Except.error ⟨400, "Need project_id OR title+description"⟩, st)
  else
    let resolved : Except PyExc (DB × Nat) :=
      match projectId with
      | none =>
        if projInsertOk then
          let prow := newProjectRow st.db.nextProjectId title description
            "multiple_files" st.clock
          let dbNew := { st.db with
                         projects := st.db.projects ++ [prow],
                         nextProjectId := st.db.nextProjectId + 1 }
          Except.ok (dbNew, prow.id)
        else Except.error (PyExc.db "project insert failed")
      | some pid =>
        if st.db.projects.any (fun p => p.id == pid) then Except.ok (st.db, pid)
        else Except.error (PyExc.http ⟨404, "Project missing"⟩)
    match resolved with
    | Except.error e =>
      (Except.error ⟨500, "Upload messed up: " ++ excStr e⟩, st)
    | Except.ok (db1, pidVal) =>
      let s := processFiles pidVal st.clock items ⟨db1, st.blobs, [], []⟩
      (Except.ok ⟨s.savedPaths.length, pidVal, s.fileIds⟩,
       { st with db := s.db, blobs := s.blobs })

/-- Whether the project-resolution phase of a multi-file upload succeeds:
either the given project id exists, or both title and description are present
and the implicit `INSERT INTO projects` does not fail. -/
def resolutionOk (st : Sys) (title description : Option String)
    (projectId : Option Nat) (projInsertOk : Bool) : Bool :=
  match projectId with
  | some pid => st.db.projects.any (fun p => p.id == pid)
  | none => title.isSome && description.isSome && projInsertOk

/-- Successful project-deletion response `(project_id, files_deleted)`. -/
structure DeleteResp where
  projectId : Nat
  filesDeleted : Nat
deriving DecidableEq, Repr

/-- The disk-cleanup loop of `delete_project` (`endpoints/projects.py` lines
292-299): for each file row of the project, if its path exists on disk,
attempt `os.remove`; an `OSError` is logged and skipped.  Returns the blob
store after the loop and the ids counted in `deleted_files`. -/
def cleanupBlobs (removeOk : String → Bool) :
    List FileRow → List String → List Nat → List String × List Nat
  | [], bl, ids => (bl, ids)
  | r :: rest, bl, ids =>
    if r.filepath ∈ bl then
      if removeOk r.filepath then
        cleanupBlobs removeOk rest (removeBlob bl r.filepath) (ids ++ [r.id])
      else cleanupBlobs removeOk rest bl ids
    else cleanupBlobs removeOk rest bl ids

/-- `delete_project` (`endpoints/projects.py` lines 275-332): require the
confirm flag, list the project file rows, best-effort remove their blobs from
disk, delete the file rows, then `DELETE .. RETURNING` the project row; if no
row came back, the 404 raised inside the `try` is caught by the blanket
handler, the transaction is rolled back (restoring the file rows but not the
blobs) and a 500 wrapping `str(e)` is surfaced.  On success the commit also
cascades the project's outcome rows (`ON DELETE CASCADE` in `main.py`). -/
def delete_project (st : Sys) (pid : Nat) (confirm : Bool)
    (removeOk : String → Bool) : Except Err DeleteResp × Sys :=
  if !confirm then
    (Except.error ⟨400, "Gotta confirm=True to delete"⟩, st)
  else
    let rows := st.db.files.filter (fun fr => fr.project_id == pid)
    let cleaned := cleanupBlobs removeOk rows st.blobs []
    let db1 :=
      if rows.isEmpty then st.db
      else { st.db with
             files := st.db.files.filter (fun fr => !(fr.project_id == pid)) }
    if st.db.projects.any (fun p => p.id == pid) then
      let db2 :=
        { db1 with
          projects := db1.projects.filter (fun p => !(p.id == pid)),
          outcomes := db1.outcomes.filter (fun o => !(o.project_id == pid)),
          files := db1.files.filter (fun fr => !(fr.project_id == pid)) }
      (Except.ok ⟨pid, cleaned.2.length⟩,
       { st with db := db2, blobs := cleaned.1 })
    else
      (Except.error ⟨500, "Error deleting: " ++ errStr ⟨404, "No project found"⟩⟩,
       { st with blobs := cleaned.1 })

/-- Row shaping performed by the `SELECT` of `list_projects`
(`endpoints/projects.py` lines 45-61): `COALESCE` replaces a NULL `title`,
`community_size`, `hazard_types`, `implementing_org` by `''`, `0`, `'\x7b\x7d'`
(the empty array) and `''`; no other column is touched.  The Python loop over
the fetched rows (lines 65-71) re-checks the same three nullable fields and is
a no-op after the COALESCE. -/
def normalizeRow (p : ProjectRow) : ProjectRow :=
  { p with
    title := some (p.title.getD ""),
    community_size := some (p.community_size.getD 0),
    hazard_types := some (p.hazard_types.getD []),
    implementing_org := some (p.implementing_org.getD "") }

/-- The `ORDER BY created_at DESC` ordering used by `list_projects`. -/
def createdDesc (a b : ProjectRow) : Prop :=
  b.created_at ≤ a.created_at

instance : DecidableRel createdDesc :=
  fun a b => Nat.decLe b.created_at a.created_at

instance : IsTotal ProjectRow createdDesc :=
  ⟨fun a b => Nat.le_total b.created_at a.created_at⟩

instance : IsTrans ProjectRow createdDesc :=
  ⟨fun _ _ _ hab hbc => Nat.le_trans hbc hab⟩

/-- `list_projects` (`endpoints/projects.py` lines 41-80): select every
project row, newest first by `created_at`, shaped by `normalizeRow`. -/
def list_projects (st : Sys) : Except Err (List ProjectRow) × Sys :=
  (Except.ok ((List.insertionSort createdDesc st.db.projects).map normalizeRow),
   st)

/-- The SQL text executed by `get_project_outcome`
(`endpoints/outcomes.py` lines 77-84), reproduced verbatim: it embeds
Python-style `#` comments inside the statement. -/
def getProjectOutcomeSQL : String :=
  "
                SELECT id, project_id, success_metrics, challenges,
                       overall_success, key_factors, created_at
                FROM outcomes
                WHERE project_id = %s
                ORDER BY created_at DESC  # Order outcomes by creation date, descending
                LIMIT 1  # Get only the most recent outcome
            "

/-- The SQL text executed by `update_outcome`
(`endpoints/outcomes.py` lines 105-113), reproduced verbatim: it embeds
Python-style `#` comments inside the statement. -/
def updateOutcomeSQL : String :=
  "
                UPDATE outcomes SET
                    success_metrics = COALESCE(%s, success_metrics),  # Update success_metrics if provided, else keep existing
                    challenges = COALESCE(%s, challenges),  # Same for challenges
                    overall_success = COALESCE(%s, overall_success),  # Same for overall_success
                    key_factors = COALESCE(%s, key_factors)  # Same for key_factors
                WHERE id = %s  # Only update the outcome with the specified ID
                RETURNING id, project_id, success_metrics, challenges,
                          overall_success, key_factors, created_at
            "

/-- Scan a character stream for a `#` occurring outside a single-quoted SQL
string literal. -/
def hashOutsideLiterals : List Char → Bool → Bool
  | [], _ => false
  | c :: rest, inLit =>
    if c = '\'' then hashOutsideLiterals rest (!inLit)
    else if c = '#' && !inLit then true
    else hashOutsideLiterals rest inLit

/-- Modelled from PostgreSQL, the external database engine the handlers talk
to through psycopg2 (psycopg2 sends the statement text unmodified): SQL
comments are `--` and `/* */`; `#` is never a comment introducer but a bare
operator character, and in each statement of `endpoints/outcomes.py` the `#`
appears where the grammar admits no operator (after `RETURNING *`, after
`DESC`, after `LIMIT 1`, after a `,` in a SET list), so the server rejects
the statement with a syntax error and `cur.execute` raises.  Statements
without a `#` outside string literals are the ordinary ones this embedding
gives semantics to directly. -/
def pgAccepts (sql : String) : Bool :=
  !(hashOutsideLiterals sql.toList false)

/-- The message of the psycopg2 error raised for such a statement. -/
def pgSyntaxErrMsg : String :=
  "syntax error at or near \"#\""

/-- `ORDER BY created_at DESC LIMIT 1` over a row list: the row with the
greatest `created_at`, if any. -/
def latestOutcome : List OutcomeRow → Option OutcomeRow
  | [] => none
  | o :: rest =>
    match latestOutcome rest with
    | none => some o
    | some m => if m.created_at ≤ o.created_at then some o else some m

/-- `get_project_outcome` (`endpoints/outcomes.py` lines 72-96): execute the
latest-outcome query — which the database rejects, see `pgAccepts` — and
otherwise return the most recent outcome or raise a 404 that the blanket
handler would re-wrap as a 500 with `str(e)`. -/
def get_project_outcome (st : Sys) (pid : Nat) : Except Err OutcomeRow × Sys :=
  if !(pgAccepts getProjectOutcomeSQL) then
    (Except.error ⟨500, pgSyntaxErrMsg⟩, st)
  else
    match latestOutcome (st.db.outcomes.filter (fun o => o.project_id == pid)) with
    | none => (Except.error ⟨500, errStr ⟨404, "No outcomes found for this project"⟩⟩, st)
    | some o => (Except.ok o, st)

/-- The update request body (`models.py` `OutcomeUpdate`): every field
optional, omitted fields are `none`. -/
structure OutcomeUpdate where
  success_metrics : Option String
  challenges : Option (List String)
  overall_success : Option Bool
  key_factors : Option (List String)
deriving DecidableEq, Repr

/-- The merge the `COALESCE(%s, column)` assignments of `update_outcome`
would perform on a row: a supplied field replaces the stored value, an
omitted one keeps it. -/
def applyOutcomeUpdate (u : OutcomeUpdate) (o : OutcomeRow) : OutcomeRow :=
  { o with
    success_metrics :=
      match u.success_metrics with
      | some v => some v
      | none => o.success_metrics,
    challenges :=
      match u.challenges with
      | some v => some v
      | none => o.challenges,
    overall_success :=
      match u.overall_success with
      | some v => some v
      | none => o.overall_success,
    key_factors :=
      match u.key_factors with
      | some v => some v
      | none => o.key_factors }

/-- `update_outcome` (`endpoints/outcomes.py` lines 100-131): execute the
COALESCE update — which the database rejects, see `pgAccepts`, so the blanket
handler rolls back and surfaces a 400 with `str(e)` — and otherwise merge the
supplied fields into the row with the given id, or wrap the 404 for a missing
row. -/
def update_outcome (st : Sys) (outcomeId : Nat) (u : OutcomeUpdate) :
    Except Err OutcomeRow × Sys :=
  if !(pgAccepts updateOutcomeSQL) then
    (Except.error ⟨400, pgSyntaxErrMsg⟩, st)
  else
    match st.db.outcomes.find? (fun o => o.id == outcomeId) with
    | none => (Except.error ⟨400, errStr ⟨404, "Outcome not found"⟩⟩, st)
    | some o =>
      let o2 := applyOutcomeUpdate u o
      let db2 :=
        { st.db with
          outcomes := st.db.outcomes.map (fun r => if r.id == outcomeId then o2 else r) }
      (Except.ok o2, { st with db := db2 })

example :
    (upload_case_study ⟨⟨[], [], [], 1, 1, 1⟩, [], 0⟩ (some "t") (some "d")
      none ⟨"a.txt", none⟩ ⟨true, true, true⟩).fst
    = Except.ok ⟨1, 1⟩ := by decide

example :
    (upload_case_study ⟨⟨[], [], [], 1, 1, 1⟩, [], 0⟩ none none
      (some 7) ⟨"a.txt", none⟩ ⟨true, true, true⟩).snd.blobs = [] := by decide

example : pgAccepts getProjectOutcomeSQL = false := by decide

example : pgAccepts updateOutcomeSQL = false := by decide

example : pgAccepts "DELETE FROM outcomes WHERE id = %s RETURNING id" = true := by
  decide

example :
    (upload_case_study_multiple ⟨⟨[], [], [], 1, 1, 1⟩, [], 0⟩ (some "t")
      (some "d") none [⟨⟨"a.txt", none⟩, true, true⟩,
        ⟨⟨"b.txt", none⟩, false, true⟩, ⟨⟨"c.txt", none⟩, true, true⟩]
      true).fst
    = Except.ok ⟨2, 1, [1, 2]⟩ := by decide

example :
    (delete_project ⟨⟨[], [], [], 1, 1, 1⟩, [], 0⟩ 3 false (fun _ => true)).snd
    = ⟨⟨[], [], [], 1, 1, 1⟩, [], 0⟩ := by decide

theorem mem_removeBlob {bl : List String} {p b : String}
    (h : b ∈ removeBlob bl p) : b ∈ bl := by
  exact (List.mem_filter.mp h).1

theorem removeBlob_writeBlob (bl : List String) (p : String) :
    removeBlob (writeBlob bl p) p = removeBlob bl p := by
  unfold writeBlob removeBlob
  split
  · rfl
  · simp [List.filter_cons]

theorem all_removeBlob {bl : List String} {pred : String → Bool} {p : String}
    (h : bl.all pred = true) : (removeBlob bl p).all pred = true := by
  rw [List.all_eq_true] at h ⊢
  intro b hb
  exact h b (mem_removeBlob hb)

theorem mem_writeBlob {bl : List String} {b : String} (p : String)
    (h : b ∈ bl) : b ∈ writeBlob bl p := by
  unfold writeBlob
  split
  · exact h
  · exact List.mem_cons_of_mem _ h

theorem self_mem_writeBlob (bl : List String) (p : String) :
    p ∈ writeBlob bl p := by
  unfold writeBlob
  split
  · assumption
  · exact List.mem_cons_self _ _

theorem processFiles_savedPaths (pid clock : Nat) (items : List FileItem) :
    ∀ s : LoopSt, (processFiles pid clock items s).savedPaths
      = s.savedPaths
        ++ (items.filter (fun it => !badFilename it.file.filename && it.saveOk)).map
             (fun it => filePathOf it.file.filename) := by
  induction items with
  | nil => intro s; simp [processFiles]
  | cons it rest ih =>
    intro s
    by_cases h1 : badFilename it.file.filename = true
    · simp [processFiles, h1, ih]
    · rw [Bool.not_eq_true] at h1
      by_cases h2 : it.saveOk = true
      · by_cases h3 : it.insertOk = true
        · simp [processFiles, h1, h2, h3, ih, List.filter_cons]
        · rw [Bool.not_eq_true] at h3
          simp [processFiles, h1, h2, h3, ih, List.filter_cons]
      · rw [Bool.not_eq_true] at h2
        simp [processFiles, h1, h2, ih, List.filter_cons]

theorem processFiles_fileIds_length (pid clock : Nat) (items : List FileItem) :
    ∀ s : LoopSt, (processFiles pid clock items s).fileIds.length
      = s.fileIds.length
        + items.countP (fun it => !badFilename it.file.filename
            && (it.saveOk && it.insertOk)) := by
  induction items with
  | nil => intro s; simp [processFiles]
  | cons it rest ih =>
    intro s
    by_cases h1 : badFilename it.file.filename = true
    · simp [processFiles, h1, ih, List.countP_cons]
    · rw [Bool.not_eq_true] at h1
      by_cases h2 : it.saveOk = true
      · by_cases h3 : it.insertOk = true
        · simp [processFiles, h1, h2, h3, ih, List.countP_cons]
          omega
        · rw [Bool.not_eq_true] at h3
          simp [processFiles, h1, h2, h3, ih, List.countP_cons]
      · rw [Bool.not_eq_true] at h2
        simp [processFiles, h1, h2, ih, List.countP_cons]

theorem processFiles_blobs_mono (pid clock : Nat) (items : List FileItem) :
    ∀ s : LoopSt, ∀ b ∈ s.blobs, b ∈ (processFiles pid clock items s).blobs := by
  induction items with
  | nil => intro s b hb; simpa [processFiles] using hb
  | cons it rest ih =>
    intro s b hb
    by_cases h1 : badFilename it.file.filename = true
    · simpa [processFiles, h1] using ih s b hb
    · rw [Bool.not_eq_true] at h1
      by_cases h2 : it.saveOk = true
      · by_cases h3 : it.insertOk = true
        · simp only [processFiles, h1, h2, h3]
          simp only [Bool.not_true, Bool.false_eq_true, if_false, if_neg]
          exact ih _ b (mem_writeBlob _ hb)
        · rw [Bool.not_eq_true] at h3
          simp only [processFiles, h1, h2, h3]
          simp only [Bool.not_true, Bool.not_false, Bool.false_eq_true, if_false, if_neg]
          exact ih _ b (mem_writeBlob _ hb)
      · rw [Bool.not_eq_true] at h2
        simpa [processFiles, h1, h2] using ih s b hb

theorem processFiles_projects (pid clock : Nat) (items : List FileItem) :
    ∀ s : LoopSt, (processFiles pid clock items s).db.projects = s.db.projects := by
  induction items with
  | nil => intro s; simp [processFiles]
  | cons it rest ih =>
    intro s
    by_cases h1 : badFilename it.file.filename = true
    · simp [processFiles, h1, ih]
    · rw [Bool.not_eq_true] at h1
      by_cases h2 : it.saveOk = true
      · by_cases h3 : it.insertOk = true
        · simp [processFiles, h1, h2, h3, ih]
        · rw [Bool.not_eq_true] at h3
          simp [processFiles, h1, h2, h3, ih]
      · rw [Bool.not_eq_true] at h2
        simp [processFiles, h1, h2, ih]

theorem processFiles_saved_blob_kept (pid clock : Nat) (items : List FileItem) :
    ∀ s : LoopSt, ∀ it ∈ items, (!badFilename it.file.filename && it.saveOk) = true →
      filePathOf it.file.filename ∈ (processFiles pid clock items s).blobs := by
  induction items with
  | nil => intro s it hit; exact absurd hit (List.not_mem_nil it)
  | cons hd rest ih =>
    intro s it hit hgood
    rcases List.mem_cons.mp hit with heq | htl
    · subst heq
      rw [Bool.and_eq_true, Bool.not_eq_true'] at hgood
      obtain ⟨h1, h2⟩ := hgood
      by_cases h3 : it.insertOk = true
      · simp only [processFiles, h1, h2, h3]
        simp only [Bool.not_true, Bool.false_eq_true, if_false, if_neg]
        exact processFiles_blobs_mono pid clock rest _ _
          (self_mem_writeBlob s.blobs (filePathOf it.file.filename))
      · rw [Bool.not_eq_true] at h3
        simp only [processFiles, h1, h2, h3]
        simp only [Bool.not_true, Bool.not_false, Bool.false_eq_true, if_false, if_neg]
        exact processFiles_blobs_mono pid clock rest _ _
          (self_mem_writeBlob s.blobs (filePathOf it.file.filename))
    · by_cases h1 : badFilename hd.file.filename = true
      · simpa [processFiles, h1] using ih s it htl hgood
      · rw [Bool.not_eq_true] at h1
        by_cases h2 : hd.saveOk = true
        · by_cases h3 : hd.insertOk = true
          · simp only [processFiles, h1, h2, h3]
            simp only [Bool.not_true, Bool.false_eq_true, if_false, if_neg]
            exact ih _ it htl hgood
          · rw [Bool.not_eq_true] at h3
            simp only [processFiles, h1, h2, h3]
            simp only [Bool.not_true, Bool.not_false, Bool.false_eq_true, if_false, if_neg]
            exact ih _ it htl hgood
        · rw [Bool.not_eq_true] at h2
          simpa [processFiles, h1, h2] using ih s it htl hgood

theorem cleanupBlobs_fst (rows : List FileRow) :
    ∀ (bl : List String) (ids : List Nat),
      (cleanupBlobs (fun _ => true) rows bl ids).1
        = bl.filter (fun p => !(rows.any (fun r => r.filepath == p))) := by
  induction rows with
  | nil => intro bl ids; simp [cleanupBlobs]
  | cons r rest ih =>
    intro bl ids
    by_cases hmem : r.filepath ∈ bl
    · simp only [cleanupBlobs, hmem, if_pos, if_true]
      rw [ih]
      unfold removeBlob
      rw [List.filter_filter]
      apply List.filter_congr
      intro a ha
      by_cases h : r.filepath = a
      · subst h; simp
      · have e1 : (r.filepath == a) = false := beq_eq_false_iff_ne.mpr h
        have e2 : (a != r.filepath) = true := by
          simp [bne_iff_ne]
          exact Ne.symm h
        simp [List.any_cons, e1, e2, Bool.and_comm]
    · simp only [cleanupBlobs, hmem, if_neg, if_false]
      rw [ih]
      apply List.filter_congr
      intro a ha
      have hne : r.filepath ≠ a := fun he => hmem (he ▸ ha)
      simp [hne]

theorem compensatedExit_ok (st : Sys) (path : String)
    (hinv : noOrphanBlobs st = true) :
    noOrphanBlobs { st with blobs := removeBlob (writeBlob st.blobs path) path } = true ∧
    ∀ b ∈ removeBlob (writeBlob st.blobs path) path, b ∈ st.blobs := by
  rw [removeBlob_writeBlob]
  refine ⟨?_, fun b hb => mem_removeBlob hb⟩
  unfold noOrphanBlobs at hinv ⊢
  exact all_removeBlob hinv

/-- Claim C1: in a single-file upload where the blob was written and a later
store mutation (project resolution or creation, or the files-row insertion)
fails, the handler deletes the just-written blob before surfacing the error,
so a failed single-file upload preserves the no-orphan-blob invariant and
leaves no new blob on disk — in particular when the given project id
references no existing project. -/
theorem upload_failed_blob_compensated
    (st : Sys) (title description : Option String) (projectId : Option Nat)
    (file : UploadFileReq) (f : UploadFaults)
    (hsave : f.diskSaveOk = true)
    (hinv : noOrphanBlobs st = true)
    (hfail : isErr (upload_case_study st title description projectId file f).fst
      = true) :
    noOrphanBlobs (upload_case_study st title description projectId file f).snd
      = true ∧
    ∀ b ∈ (upload_case_study st title description projectId file f).snd.blobs,
      b ∈ st.blobs := by
  simp only [upload_case_study, hsave, Bool.not_true, Bool.false_eq_true,
    if_false] at hfail ⊢
  by_cases hA : (projectId.isNone && (title.isNone || description.isNone)) = true
  · simp only [hA, if_true] at hfail ⊢
    exact ⟨hinv, fun b hb => hb⟩
  · simp only [hA, if_false, Bool.false_eq_true] at hfail ⊢
    by_cases hB : badFilename file.filename = true
    · simp only [hB, if_true] at hfail ⊢
      exact ⟨hinv, fun b hb => hb⟩
    · simp only [hB, if_false, Bool.false_eq_true] at hfail ⊢
      cases projectId with
      | none =>
        by_cases hC : f.dbProjInsertOk = true
        · simp only [hC, if_true] at hfail ⊢
          by_cases hD : f.dbFileInsertOk = true
          · simp only [hD, if_true] at hfail
            simp [isErr] at hfail
          · simp only [hD, if_false, Bool.false_eq_true] at hfail ⊢
            exact compensatedExit_ok st (filePathOf file.filename) hinv
        · simp only [hC, if_false, Bool.false_eq_true] at hfail ⊢
          exact compensatedExit_ok st (filePathOf file.filename) hinv
      | some pid =>
        by_cases hE : (st.db.projects.any (fun p => p.id == pid)) = true
        · simp only [hE, if_true] at hfail ⊢
          by_cases hD : f.dbFileInsertOk = true
          · simp only [hD, if_true] at hfail
            simp [isErr] at hfail
          · simp only [hD, if_false, Bool.false_eq_true] at hfail ⊢
            exact compensatedExit_ok st (filePathOf file.filename) hinv
        · simp only [hE, if_false, Bool.false_eq_true] at hfail ⊢
          exact compensatedExit_ok st (filePathOf file.filename) hinv

theorem upload_failed_blob_compensated_witness :
    ((⟨true, true, true⟩ : UploadFaults).diskSaveOk = true ∧
     noOrphanBlobs ⟨⟨[], [], [], 1, 1, 1⟩, [], 0⟩ = true ∧
     isErr (upload_case_study ⟨⟨[], [], [], 1, 1, 1⟩, [], 0⟩ none none (some 1)
       ⟨"a.txt", none⟩ ⟨true, true, true⟩).fst = true) ∧
    (noOrphanBlobs (upload_case_study ⟨⟨[], [], [], 1, 1, 1⟩, [], 0⟩ none none
       (some 1) ⟨"a.txt", none⟩ ⟨true, true, true⟩).snd = true ∧
     ∀ b ∈ (upload_case_study ⟨⟨[], [], [], 1, 1, 1⟩, [], 0⟩ none none (some 1)
       ⟨"a.txt", none⟩ ⟨true, true, true⟩).snd.blobs,
       b ∈ (⟨⟨[], [], [], 1, 1, 1⟩, [], 0⟩ : Sys).blobs) :=
  ⟨⟨rfl, by decide, by decide⟩,
   upload_failed_blob_compensated ⟨⟨[], [], [], 1, 1, 1⟩, [], 0⟩ none none
     (some 1) ⟨"a.txt", none⟩ ⟨true, true, true⟩ rfl (by decide) (by decide)⟩

/-- Claim C5: a project deletion with confirm=false fails immediately with
the confirmation-required 400 and performs no side effects: the whole system
state — all rows and all blobs — is returned unchanged. -/
theorem delete_without_confirm_no_side_effects (st : Sys) (pid : Nat)
    (removeOk : String → Bool) :
    delete_project st pid false removeOk
      = (Except.error ⟨400, "Gotta confirm=True to delete"⟩, st) := rfl

/-- Claim C7: a single-file upload whose filename is empty or contains a path
separator is rejected with a 400 client error and the rejection happens
before any write to the blob store: the state is returned unchanged. -/
theorem upload_bad_filename_rejected (st : Sys)
    (title description : Option String) (projectId : Option Nat)
    (file : UploadFileReq) (f : UploadFaults)
    (hbad : badFilename file.filename = true) :
    (∃ e, (upload_case_study st title description projectId file f).fst
        = Except.error e ∧ e.status = 400) ∧
    (upload_case_study st title description projectId file f).snd = st := by
  simp only [upload_case_study]
  by_cases hA : (projectId.isNone && (title.isNone || description.isNone)) = true
  · simp only [hA, if_true]
    exact ⟨⟨⟨400, "Need either project_id OR title+description"⟩, rfl, rfl⟩, trivial⟩
  · simp only [hA, if_false, Bool.false_eq_true, hbad, if_true]
    exact ⟨⟨⟨400, "Bad filename"⟩, rfl, rfl⟩, trivial⟩

theorem upload_bad_filename_rejected_witness :
    badFilename "evil/name" = true ∧
    ((∃ e, (upload_case_study ⟨⟨[], [], [], 1, 1, 1⟩, [], 0⟩ (some "t")
        (some "d") none ⟨"evil/name", none⟩ ⟨true, true, true⟩).fst
        = Except.error e ∧ e.status = 400) ∧
     (upload_case_study ⟨⟨[], [], [], 1, 1, 1⟩, [], 0⟩ (some "t") (some "d")
        none ⟨"evil/name", none⟩ ⟨true, true, true⟩).snd
        = ⟨⟨[], [], [], 1, 1, 1⟩, [], 0⟩) :=
  ⟨by decide,
   upload_bad_filename_rejected ⟨⟨[], [], [], 1, 1, 1⟩, [], 0⟩ (some "t")
     (some "d") none ⟨"evil/name", none⟩ ⟨true, true, true⟩ (by decide)⟩

/-- Claim C2 (amended): a confirmed deletion of a nonexistent project fails —
but with a 500 server error wrapping the NotFound detail, because the blanket
handler re-raises the inner 404 as `HTTPException(500, f.Error deleting:
str(e))` — and the failure is surfaced only after the per-file blob cleanup
for that project id has been performed: the database rows are restored by the
rollback, while the blob deletions are not undone (with disk removals
succeeding, exactly the blobs referenced by the project's file rows are
gone). -/
theorem delete_missing_project_wrapped_500 (st : Sys) (pid : Nat)
    (h : st.db.projects.any (fun p => p.id == pid) = false) :
    (delete_project st pid true (fun _ => true)).fst
        = Except.error ⟨500, "Error deleting: 404: No project found"⟩ ∧
    (delete_project st pid true (fun _ => true)).snd.db = st.db ∧
    (delete_project st pid true (fun _ => true)).snd.blobs
        = st.blobs.filter (fun b =>
            !((st.db.files.filter (fun fr => fr.project_id == pid)).any
                (fun r => r.filepath == b))) := by
  simp only [delete_project, Bool.not_true, Bool.false_eq_true, if_false, h]
  refine ⟨by decide, by trivial, ?_⟩
  exact cleanupBlobs_fst _ st.blobs []

theorem delete_missing_project_wrapped_500_witness :
    ((⟨⟨[⟨1, some "t", none, none, none, none, none, none, none, none, none, 0⟩],
        [], [⟨5, 2, "a.txt", "uploads/a.txt", none, 0⟩], 2, 1, 6⟩,
       ["uploads/a.txt", "keep.txt"], 0⟩ : Sys).db.projects.any
        (fun p => p.id == 2) = false) ∧
    ((delete_project ⟨⟨[⟨1, some "t", none, none, none, none, none, none, none,
        none, none, 0⟩], [], [⟨5, 2, "a.txt", "uploads/a.txt", none, 0⟩], 2, 1, 6⟩,
       ["uploads/a.txt", "keep.txt"], 0⟩ 2 true (fun _ => true)).fst
        = Except.error ⟨500, "Error deleting: 404: No project found"⟩ ∧
     (delete_project ⟨⟨[⟨1, some "t", none, none, none, none, none, none, none,
        none, none, 0⟩], [], [⟨5, 2, "a.txt", "uploads/a.txt", none, 0⟩], 2, 1, 6⟩,
       ["uploads/a.txt", "keep.txt"], 0⟩ 2 true (fun _ => true)).snd.db
        = (⟨⟨[⟨1, some "t", none, none, none, none, none, none, none, none, none,
            0⟩], [], [⟨5, 2, "a.txt", "uploads/a.txt", none, 0⟩], 2, 1, 6⟩,
           ["uploads/a.txt", "keep.txt"], 0⟩ : Sys).db ∧
     (delete_project ⟨⟨[⟨1, some "t", none, none, none, none, none, none, none,
        none, none, 0⟩], [], [⟨5, 2, "a.txt", "uploads/a.txt", none, 0⟩], 2, 1, 6⟩,
       ["uploads/a.txt", "keep.txt"], 0⟩ 2 true (fun _ => true)).snd.blobs
        = (⟨⟨[⟨1, some "t", none, none, none, none, none, none, none, none, none,
            0⟩], [], [⟨5, 2, "a.txt", "uploads/a.txt", none, 0⟩], 2, 1, 6⟩,
           ["uploads/a.txt", "keep.txt"], 0⟩ : Sys).blobs.filter (fun b =>
            !(((⟨⟨[⟨1, some "t", none, none, none, none, none, none, none, none,
              none, 0⟩], [], [⟨5, 2, "a.txt", "uploads/a.txt", none, 0⟩], 2, 1, 6⟩,
              ["uploads/a.txt", "keep.txt"], 0⟩ : Sys).db.files.filter
                (fun fr => fr.project_id == 2)).any (fun r => r.filepath == b)))) :=
  ⟨by decide,
   delete_missing_project_wrapped_500 ⟨⟨[⟨1, some "t", none, none, none, none,
     none, none, none, none, none, 0⟩], [],
     [⟨5, 2, "a.txt", "uploads/a.txt", none, 0⟩], 2, 1, 6⟩,
     ["uploads/a.txt", "keep.txt"], 0⟩ 2 (by decide)⟩

/-- Claim C2 (counterexample to the claim as stated): at a concrete state
with no project 2, a confirmed deletion of project 2 surfaces status 500 —
not the NotFound status 404 the claim names — because the inner 404 is
re-wrapped by the blanket exception handler. -/
theorem delete_missing_project_counterexample :
    (delete_project ⟨⟨[], [], [], 1, 1, 1⟩, [], 0⟩ 2 true (fun _ => true)).fst
      = Except.error ⟨500, "Error deleting: 404: No project found"⟩ ∧
    (500 : Nat) ≠ 404 :=
  ⟨by decide, by decide⟩

/-- Claim C3 (amended): a multi-file upload naming a nonexistent project id
aborts the whole batch before any blob is written — the returned state is
exactly the input state — but the abort is surfaced as a 500 server error
wrapping the NotFound detail, because the blanket handler re-raises the inner
404 as `HTTPException(500, f.Upload messed up: str(e))`. -/
theorem multi_upload_missing_project_wrapped_500 (st : Sys)
    (title description : Option String) (pid : Nat) (items : List FileItem)
    (projInsertOk : Bool)
    (hne : items.isEmpty = false)
    (hmissing : st.db.projects.any (fun p => p.id == pid) = false) :
    (upload_case_study_multiple st title description (some pid) items
        projInsertOk).fst
      = Except.error ⟨500, "Upload messed up: 404: Project missing"⟩ ∧
    (upload_case_study_multiple st title description (some pid) items
        projInsertOk).snd = st := by
  simp only [upload_case_study_multiple, hne, Bool.false_eq_true, if_false,
    Option.isNone_some, Bool.false_and, hmissing]
  exact ⟨by decide, by trivial⟩

theorem multi_upload_missing_project_wrapped_500_witness :
    (([⟨⟨"a.txt", none⟩, true, true⟩, ⟨⟨"b.txt", none⟩, true, true⟩] :
        List FileItem).isEmpty = false) ∧
    ((⟨⟨[], [], [], 1, 1, 1⟩, [], 0⟩ : Sys).db.projects.any
        (fun p => p.id == 7) = false) ∧
    ((upload_case_study_multiple ⟨⟨[], [], [], 1, 1, 1⟩, [], 0⟩ none none
        (some 7) [⟨⟨"a.txt", none⟩, true, true⟩, ⟨⟨"b.txt", none⟩, true, true⟩]
        true).fst
      = Except.error ⟨500, "Upload messed up: 404: Project missing"⟩ ∧
     (upload_case_study_multiple ⟨⟨[], [], [], 1, 1, 1⟩, [], 0⟩ none none
        (some 7) [⟨⟨"a.txt", none⟩, true, true⟩, ⟨⟨"b.txt", none⟩, true, true⟩]
        true).snd = ⟨⟨[], [], [], 1, 1, 1⟩, [], 0⟩) :=
  ⟨by decide, by decide,
   multi_upload_missing_project_wrapped_500 ⟨⟨[], [], [], 1, 1, 1⟩, [], 0⟩
     none none 7 [⟨⟨"a.txt", none⟩, true, true⟩, ⟨⟨"b.txt", none⟩, true, true⟩]
     true (by decide) (by decide)⟩

/-- Claim C3 (counterexample to the claim as stated): at a concrete state
with no project 7, a two-file batch upload naming project 7 is aborted with
status 500 — not the NotFound status 404 the claim names — though indeed with
no blob written. -/
theorem multi_upload_missing_project_counterexample :
    (upload_case_study_multiple ⟨⟨[], [], [], 1, 1, 1⟩, [], 0⟩ none none
        (some 7) [⟨⟨"a.txt", none⟩, true, true⟩, ⟨⟨"b.txt", none⟩, true, true⟩]
        true).fst
      = Except.error ⟨500, "Upload messed up: 404: Project missing"⟩ ∧
    (500 : Nat) ≠ 404 ∧
    (upload_case_study_multiple ⟨⟨[], [], [], 1, 1, 1⟩, [], 0⟩ none none
        (some 7) [⟨⟨"a.txt", none⟩, true, true⟩, ⟨⟨"b.txt", none⟩, true, true⟩]
        true).snd.blobs = [] :=
  ⟨by decide, by decide, by decide⟩

/-- Claim C4: under the multi-file upload preconditions (nonempty batch,
resolvable target), each file is processed independently: invalid filenames
are skipped without failing the request, a per-file save or insert failure
skips only that file — blobs already on disk are never deleted and every
successfully saved blob is still on disk at the end — the response reports
the count of files actually saved and the inserted ids, and an implicitly
created project is created exactly once for the whole batch. -/
theorem multi_upload_best_effort (st : Sys) (title description : Option String)
    (projectId : Option Nat) (items : List FileItem) (projInsertOk : Bool)
    (hne : items.isEmpty = false)
    (hres : resolutionOk st title description projectId projInsertOk = true) :
    ∃ resp, (upload_case_study_multiple st title description projectId items
        projInsertOk).fst = Except.ok resp ∧
      resp.savedCount
        = items.countP (fun it => !badFilename it.file.filename && it.saveOk) ∧
      resp.fileIds.length
        = items.countP (fun it => !badFilename it.file.filename
            && (it.saveOk && it.insertOk)) ∧
      (∀ b ∈ st.blobs, b ∈ (upload_case_study_multiple st title description
          projectId items projInsertOk).snd.blobs) ∧
      (∀ it ∈ items, (!badFilename it.file.filename && it.saveOk) = true →
        filePathOf it.file.filename ∈ (upload_case_study_multiple st title
          description projectId items projInsertOk).snd.blobs) ∧
      (upload_case_study_multiple st title description projectId items
          projInsertOk).snd.db.projects.length
        = st.db.projects.length + (if projectId.isSome then 0 else 1) := by
  cases projectId with
  | some pid =>
    have hex : st.db.projects.any (fun p => p.id == pid) = true := hres
    simp only [upload_case_study_multiple, hne, Bool.false_eq_true, if_false,
      Option.isNone_some, Bool.false_and, hex, if_true, Option.isSome_some]
    refine ⟨_, rfl, ?_, ?_, ?_, ?_, ?_⟩
    · rw [processFiles_savedPaths]
      simp [List.countP_eq_length_filter]
    · rw [processFiles_fileIds_length]
      simp
    · intro b hb
      exact processFiles_blobs_mono pid st.clock items _ b hb
    · intro it hit hgood
      exact processFiles_saved_blob_kept pid st.clock items _ it hit hgood
    · rw [processFiles_projects]
      simp
  | none =>
    simp only [resolutionOk, Bool.and_eq_true] at hres
    obtain ⟨⟨ht, hd⟩, hp⟩ := hres
    obtain ⟨t, ht⟩ := Option.isSome_iff_exists.mp ht
    obtain ⟨d, hd⟩ := Option.isSome_iff_exists.mp hd
    subst ht hd hp
    simp only [upload_case_study_multiple, hne, Bool.false_eq_true, if_false,
      Option.isNone_some, Option.isNone_none, Bool.true_and, Bool.or_self,
      Bool.and_false, if_true, Option.isSome_none]
    refine ⟨_, rfl, ?_, ?_, ?_, ?_, ?_⟩
    · rw [processFiles_savedPaths]
      simp [List.countP_eq_length_filter]
    · rw [processFiles_fileIds_length]
      simp
    · intro b hb
      exact processFiles_blobs_mono _ st.clock items _ b hb
    · intro it hit hgood
      exact processFiles_saved_blob_kept _ st.clock items _ it hit hgood
    · rw [processFiles_projects]
      simp

theorem multi_upload_best_effort_witness :
    (([⟨⟨"a.txt", none⟩, true, true⟩, ⟨⟨"b.txt", none⟩, false, true⟩,
       ⟨⟨"c.txt", none⟩, true, true⟩] : List FileItem).isEmpty = false) ∧
    (resolutionOk ⟨⟨[], [], [], 1, 1, 1⟩, [], 0⟩ (some "t") (some "d") none true
      = true) ∧
    (∃ resp, (upload_case_study_multiple ⟨⟨[], [], [], 1, 1, 1⟩, [], 0⟩
        (some "t") (some "d") none [⟨⟨"a.txt", none⟩, true, true⟩,
        ⟨⟨"b.txt", none⟩, false, true⟩, ⟨⟨"c.txt", none⟩, true, true⟩]
        true).fst = Except.ok resp ∧
      resp.savedCount
        = ([⟨⟨"a.txt", none⟩, true, true⟩, ⟨⟨"b.txt", none⟩, false, true⟩,
            ⟨⟨"c.txt", none⟩, true, true⟩] : List FileItem).countP
            (fun it => !badFilename it.file.filename && it.saveOk) ∧
      resp.fileIds.length
        = ([⟨⟨"a.txt", none⟩, true, true⟩, ⟨⟨"b.txt", none⟩, false, true⟩,
            ⟨⟨"c.txt", none⟩, true, true⟩] : List FileItem).countP
            (fun it => !badFilename it.file.filename
              && (it.saveOk && it.insertOk)) ∧
      (∀ b ∈ (⟨⟨[], [], [], 1, 1, 1⟩, [], 0⟩ : Sys).blobs,
        b ∈ (upload_case_study_multiple ⟨⟨[], [], [], 1, 1, 1⟩, [], 0⟩
          (some "t") (some "d") none [⟨⟨"a.txt", none⟩, true, true⟩,
          ⟨⟨"b.txt", none⟩, false, true⟩, ⟨⟨"c.txt", none⟩, true, true⟩]
          true).snd.blobs) ∧
      (∀ it ∈ ([⟨⟨"a.txt", none⟩, true, true⟩, ⟨⟨"b.txt", none⟩, false, true⟩,
          ⟨⟨"c.txt", none⟩, true, true⟩] : List FileItem),
        (!badFilename it.file.filename && it.saveOk) = true →
        filePathOf it.file.filename ∈ (upload_case_study_multiple
          ⟨⟨[], [], [], 1, 1, 1⟩, [], 0⟩ (some "t") (some "d") none
          [⟨⟨"a.txt", none⟩, true, true⟩, ⟨⟨"b.txt", none⟩, false, true⟩,
          ⟨⟨"c.txt", none⟩, true, true⟩] true).snd.blobs) ∧
      (upload_case_study_multiple ⟨⟨[], [], [], 1, 1, 1⟩, [], 0⟩ (some "t")
        (some "d") none [⟨⟨"a.txt", none⟩, true, true⟩,
        ⟨⟨"b.txt", none⟩, false, true⟩, ⟨⟨"c.txt", none⟩, true, true⟩]
        true).snd.db.projects.length
        = (⟨⟨[], [], [], 1, 1, 1⟩, [], 0⟩ : Sys).db.projects.length
          + (if (none : Option Nat).isSome then 0 else 1)) :=
  ⟨by decide, by decide,
   multi_upload_best_effort ⟨⟨[], [], [], 1, 1, 1⟩, [], 0⟩ (some "t")
     (some "d") none [⟨⟨"a.txt", none⟩, true, true⟩,
     ⟨⟨"b.txt", none⟩, false, true⟩, ⟨⟨"c.txt", none⟩, true, true⟩] true
     (by decide) (by decide)⟩

/-- Claim C8 (amended): list-projects returns, with the state untouched, a
sequence containing exactly the stored projects shaped by `normalizeRow` —
which normalizes only the null `title`, `community_size`, `hazard_types` and
`implementing_org` fields to `''`, `0`, `[]`, `''`, leaving `description`,
`location`, dates, `author` and `source` as stored — ordered newest first by
`created_at`. -/
theorem list_projects_sorted_normalized (st : Sys) :
    ∃ res, list_projects st = (Except.ok res, st) ∧
      res.Perm (st.db.projects.map normalizeRow) ∧
      List.Pairwise (fun a b => b.created_at ≤ a.created_at) res := by
  refine ⟨_, rfl, ?_, ?_⟩
  · exact (List.perm_insertionSort createdDesc st.db.projects).map normalizeRow
  · have hs := List.sorted_insertionSort createdDesc st.db.projects
    exact List.Pairwise.map normalizeRow (fun a b hab => hab) hs

/-- Claim C8 (counterexample to the claim as stated): a stored project whose
`description` and `author` (null text fields) are NULL is returned with those
fields still null — only title, community_size, hazard_types and
implementing_org are normalized. -/
theorem list_projects_counterexample :
    (list_projects ⟨⟨[⟨1, some "t", none, none, none, none, none, none, none,
        none, none, 3⟩], [], [], 2, 1, 1⟩, [], 0⟩).fst
      = Except.ok [⟨1, some "t", none, none, none, none, some 0, some [],
        some "", none, none, 3⟩] ∧
    (⟨1, some "t", none, none, none, none, some 0, some [], some "", none,
        none, 3⟩ : ProjectRow).description = none ∧
    (⟨1, some "t", none, none, none, none, some 0, some [], some "", none,
        none, 3⟩ : ProjectRow).author = none :=
  ⟨by decide, rfl, rfl⟩

/-- Claim C6 (code bug): the UPDATE statement of `update_outcome` embeds
Python-style `#` comments that PostgreSQL rejects as a syntax error, so every
outcome update — here supplying only `overall_success` for the stored outcome
with id 1 — fails with a 400 wrapping the syntax error and changes nothing:
the merge semantics the claim describes is never reached. -/
theorem update_outcome_always_fails :
    pgAccepts updateOutcomeSQL = false ∧
    update_outcome ⟨⟨[], [⟨1, 1, none, none, some false, none, 0⟩], [], 1, 2, 1⟩,
        [], 5⟩ 1 ⟨none, none, some true, none⟩
      = (Except.error ⟨400, pgSyntaxErrMsg⟩,
         ⟨⟨[], [⟨1, 1, none, none, some false, none, 0⟩], [], 1, 2, 1⟩, [], 5⟩) ∧
    ((⟨⟨[], [⟨1, 1, none, none, some false, none, 0⟩], [], 1, 2, 1⟩, [], 5⟩ :
        Sys).db.outcomes.any (fun o => o.id == 1)) = true :=
  ⟨by decide, by decide, by decide⟩

/-- Claim C9 (code bug): the latest-outcome SELECT of `get_project_outcome`
embeds Python-style `#` comments that PostgreSQL rejects as a syntax error,
so the read — here for project 1, which has a stored outcome — always fails
with a 500 wrapping the syntax error instead of returning the most recent
outcome (and instead of a NotFound when none exists). -/
theorem get_project_outcome_always_fails :
    pgAccepts getProjectOutcomeSQL = false ∧
    get_project_outcome ⟨⟨[], [⟨1, 1, none, none, some true, none, 4⟩], [], 1,
        2, 1⟩, [], 5⟩ 1
      = (Except.error ⟨500, pgSyntaxErrMsg⟩,
         ⟨⟨[], [⟨1, 1, none, none, some true, none, 4⟩], [], 1, 2, 1⟩, [], 5⟩) ∧
    ((⟨⟨[], [⟨1, 1, none, none, some true, none, 4⟩], [], 1, 2, 1⟩, [], 5⟩ :
        Sys).db.outcomes.any (fun o => o.project_id == 1)) = true :=
  ⟨by decide, by decide, by decide⟩

/-- Claim C10: on an implicitly creating upload the sentinel `location` of
the new project row is `.unspecified.` for the single-file endpoint and
`.multiple_files.` for the multi-file endpoint, and the two sentinels
differ. -/
theorem upload_sentinel_locations (st1 st2 : Sys) (t d t2 d2 : String)
    (file : UploadFileReq) (items : List FileItem)
    (hfn : badFilename file.filename = false)
    (hne : items.isEmpty = false) :
    (∃ p, (upload_case_study st1 (some t) (some d) none file
        ⟨true, true, true⟩).snd.db.projects = st1.db.projects ++ [p] ∧
      p.location = some "unspecified") ∧
    (∃ q, (upload_case_study_multiple st2 (some t2) (some d2) none items
        true).snd.db.projects = st2.db.projects ++ [q] ∧
      q.location = some "multiple_files") ∧
    ("unspecified" : String) ≠ "multiple_files" := by
  refine ⟨?_, ?_, by decide⟩
  · simp only [upload_case_study, Option.isNone_some, Option.isNone_none,
      Bool.or_self, Bool.and_false, Bool.false_eq_true, if_false, hfn,
      Bool.not_true, if_true]
    exact ⟨_, rfl, rfl⟩
  · simp only [upload_case_study_multiple, hne, Option.isNone_some,
      Option.isNone_none, Bool.or_self, Bool.and_false, Bool.false_eq_true,
      if_false, if_true]
    rw [processFiles_projects]
    exact ⟨_, rfl, rfl⟩

theorem upload_sentinel_locations_witness :
    badFilename "a.txt" = false ∧
    (([⟨⟨"b.txt", none⟩, true, true⟩] : List FileItem).isEmpty = false) ∧
    ((∃ p, (upload_case_study ⟨⟨[], [], [], 1, 1, 1⟩, [], 0⟩ (some "t")
        (some "d") none ⟨"a.txt", none⟩ ⟨true, true, true⟩).snd.db.projects
        = (⟨⟨[], [], [], 1, 1, 1⟩, [], 0⟩ : Sys).db.projects ++ [p] ∧
      p.location = some "unspecified") ∧
     (∃ q, (upload_case_study_multiple ⟨⟨[], [], [], 1, 1, 1⟩, [], 0⟩
        (some "t2") (some "d2") none [⟨⟨"b.txt", none⟩, true, true⟩]
        true).snd.db.projects
        = (⟨⟨[], [], [], 1, 1, 1⟩, [], 0⟩ : Sys).db.projects ++ [q] ∧
      q.location = some "multiple_files") ∧
     ("unspecified" : String) ≠ "multiple_files") :=
  ⟨by decide, by decide,
   upload_sentinel_locations ⟨⟨[], [], [], 1, 1, 1⟩, [], 0⟩
     ⟨⟨[], [], [], 1, 1, 1⟩, [], 0⟩ "t" "d" "t2" "d2" ⟨"a.txt", none⟩
     [⟨⟨"b.txt", none⟩, true, true⟩] (by decide) (by decide)⟩
